import Mathlib

/-!
Verification of the GameTank emulator core (gametank-sdk, tools/gte/core).

Rust sources are shallowly embedded: u8/u16 machine integers become Nat with
explicit wrapping (mod 256 / mod 65536) at the operations where Rust wraps,
mutable state becomes explicit state passing, and arrays become functions
from indices to bytes.
-/

set_option maxRecDepth 2000

namespace GameTank

/-- Wrapping u8 addition, mirroring u8 wrapping_add and release-mode add. -/
def u8add (a b : Nat) : Nat := (a + b) % 256

/-- Wrapping u8 subtraction, mirroring u8 wrapping_sub. -/
def u8sub (a b : Nat) : Nat := (a % 256 + 256 - b % 256) % 256

/-- Bitwise u8 complement, mirroring the Rust not operator on u8. -/
def u8not (a : Nat) : Nat := a % 256 ^^^ 255

/-- Convert a Rust bool-to-u8 cast. -/
def b2n (b : Bool) : Nat := if b then 1 else 0

/-! ## DMA / video flags (register 0x2007)

Modelled from the spec: the core file reg_etc.rs that declares the
BlitterFlags accessors is absent from the sources; the accessors below follow
the spec (two flag bits select the graphics window, IRQ/NMI/colorfill/gcarry/
opaque/page-out bits) with the bit layout documented for register 0x2007 in
the in-repo SDK file sdk-template/gametank/src/scr.rs (DMA_ENABLE bit 0,
DMA_PAGE_OUT bit 1, DMA_NMI bit 2, DMA_COLORFILL bit 3, DMA_GCARRY bit 4,
DMA_CPU_TO_VRAM bit 5, DMA_IRQ bit 6, DMA_OPAQUE bit 7). -/

structure BlitterFlags where
  bits : Nat

def BlitterFlags.dma_enable (f : BlitterFlags) : Bool := f.bits.testBit 0

def BlitterFlags.dma_page_out (f : BlitterFlags) : Bool := f.bits.testBit 1

def BlitterFlags.dma_nmi (f : BlitterFlags) : Bool := f.bits.testBit 2

def BlitterFlags.dma_colorfill_enable (f : BlitterFlags) : Bool := f.bits.testBit 3

def BlitterFlags.dma_gcarry (f : BlitterFlags) : Bool := f.bits.testBit 4

def BlitterFlags.dma_cpu_to_vram (f : BlitterFlags) : Bool := f.bits.testBit 5

def BlitterFlags.dma_irq (f : BlitterFlags) : Bool := f.bits.testBit 6

def BlitterFlags.dma_opaque (f : BlitterFlags) : Bool := f.bits.testBit 7

/-! ## Banking register (register 0x2005)

Modelled from the spec: reg_etc.rs is absent; per the spec, bank-select
chooses the system RAM bank, the VRAM page and the writable framebuffer,
with the bit layout documented for register 0x2005 in the in-repo SDK file
sdk-template/gametank/src/scr.rs (bits 0-2 sprite page, bit 3 framebuffer
select, bits 6-7 RAM bank). -/

structure BankingRegister where
  bits : Nat

def BankingRegister.vram_page (r : BankingRegister) : Nat := r.bits % 8

def BankingRegister.framebuffer (r : BankingRegister) : Nat := r.bits / 8 % 2

def BankingRegister.ram_bank (r : BankingRegister) : Nat := r.bits / 64 % 4

/-- The three interpretations of the shared 16KB graphics window
(gametank_bus, enum GraphicsMemoryMap). -/
inductive GraphicsMemoryMap where
  | FrameBuffer
  | VRAM
  | BlitterRegisters
deriving DecidableEq, Repr

/-! ## Gamepads

Modelled from the spec: inputs.rs is absent; per the spec a controller port
carries per-button press state for start, A, B, C and the d-pad, plus the
port-select latch read by the gamepad registers. Field names follow their
uses in reg_system_control.rs. -/

structure GamePad where
  port_select : Bool
  up : Bool
  down : Bool
  left : Bool
  right : Bool
  b : Bool
  a : Bool
  start : Bool
  c : Bool
deriving DecidableEq, Repr

/-! ## System control registers (reg_system_control.rs) -/

structure SystemControl where
  reset_acp : Nat
  nmi_acp : Nat
  banking_register : BankingRegister
  via_regs : Nat → Nat
  audio_enable_sample_rate : Nat
  dma_flags : BlitterFlags
  gamepads : Bool → GamePad

def SystemControl.get_ram_bank (sc : SystemControl) : Nat :=
  sc.banking_register.ram_bank

def SystemControl.get_graphics_memory_map (sc : SystemControl) : GraphicsMemoryMap :=
  if sc.dma_flags.dma_enable then GraphicsMemoryMap.BlitterRegisters
  else if sc.dma_flags.dma_cpu_to_vram then GraphicsMemoryMap.FrameBuffer
  else GraphicsMemoryMap.VRAM

def SystemControl.acp_enabled (sc : SystemControl) : Bool :=
  sc.audio_enable_sample_rate &&& 0b10000000 != 0

def SystemControl.sample_rate (sc : SystemControl) : Nat :=
  sc.audio_enable_sample_rate

def SystemControl.get_framebuffer_out (sc : SystemControl) : Nat :=
  b2n sc.dma_flags.dma_page_out

def SystemControl.write_byte (sc : SystemControl) (address data : Nat) : SystemControl :=
  if address == 0x2000 then { sc with reset_acp := data }
  else if address == 0x2001 then { sc with nmi_acp := data }
  else if address == 0x2005 then { sc with banking_register := ⟨data⟩ }
  else if address == 0x2006 then { sc with audio_enable_sample_rate := data }
  else if address == 0x2007 then { sc with dma_flags := ⟨data⟩ }
  else sc

def SystemControl.peek_gamepad_byte (sc : SystemControl) (port_1 : Bool) : Nat :=
  let gamepad := sc.gamepads (!port_1)
  if !gamepad.port_select then
    255 &&& u8not (b2n gamepad.start <<< 5) &&& u8not (b2n gamepad.a <<< 4)
  else
    255 &&& u8not (b2n gamepad.c <<< 5) &&& u8not (b2n gamepad.b <<< 4)
        &&& u8not (b2n gamepad.up <<< 3) &&& u8not (b2n gamepad.down <<< 2)
        &&& u8not (b2n gamepad.left <<< 1) &&& u8not (b2n gamepad.right <<< 0)

/-- Update one gamepad slot, leaving the other unchanged. -/
def SystemControl.setGamepad (sc : SystemControl) (i : Bool) (g : GamePad) : SystemControl :=
  { sc with gamepads := fun j => if j == i then g else sc.gamepads j }

def SystemControl.read_gamepad_byte (sc : SystemControl) (port_1 : Bool) : Nat × SystemControl :=
  let byte := sc.peek_gamepad_byte port_1
  let sc := sc.setGamepad port_1 { sc.gamepads port_1 with port_select := false }
  let sc := sc.setGamepad (!port_1)
    { sc.gamepads (!port_1) with port_select := !(sc.gamepads (!port_1)).port_select }
  (byte, sc)

def SystemControl.read_byte (sc : SystemControl) (address : Nat) : Nat × SystemControl :=
  if address == 0x2008 then sc.read_gamepad_byte true
  else if address == 0x2009 then sc.read_gamepad_byte false
  else (0, sc)

def SystemControl.peek_byte (sc : SystemControl) (address : Nat) : Nat :=
  if address == 0x2008 then sc.peek_gamepad_byte true
  else if address == 0x2009 then sc.peek_gamepad_byte false
  else 0

/-! ## Blitter registers (reg_blitter.rs) -/

structure BlitStart where
  write : Nat
  addressed : Bool

def BlitStart.read_once (s : BlitStart) : (Bool × Bool) × BlitStart :=
  ((s.write &&& 1 == 1, s.addressed), { write := 0, addressed := false })

structure BlitterRegisters where
  vx : Nat
  vy : Nat
  gx : Nat
  gy : Nat
  width : Nat
  height : Nat
  start : BlitStart
  color : Nat

def BlitterRegisters.vram_quadrant (r : BlitterRegisters) : Nat :=
  (if r.gx ≥ 128 then 1 else 0) + (if r.gy ≥ 128 then 2 else 0)

def BlitterRegisters.read_byte (r : BlitterRegisters) (address : Nat) :
    Nat × BlitterRegisters :=
  if address == 0x4006 then (0, { r with start := { r.start with addressed := true } })
  else (0, r)

def BlitterRegisters.write_byte (r : BlitterRegisters) (address data : Nat) :
    BlitterRegisters :=
  if address == 0x4000 then { r with vx := data }
  else if address == 0x4001 then { r with vy := data }
  else if address == 0x4002 then { r with gx := data }
  else if address == 0x4003 then { r with gy := data }
  else if address == 0x4004 then { r with width := data }
  else if address == 0x4005 then { r with height := data }
  else if address == 0x4006 then { r with start := { write := data, addressed := true } }
  else if address == 0x4007 then { r with color := data }
  else r

/-! ## 2MB flash cartridge (cartridges/cart2mj21.rs) -/

/-- Block lengths for the 35 blocks in the 2MB flash cartridge. -/
def BLOCK_LENGTHS : List Nat :=
  [0x10000, 0x10000, 0x10000, 0x10000, 0x10000, 0x10000, 0x10000,
   0x10000, 0x10000, 0x10000, 0x10000, 0x10000, 0x10000, 0x10000,
   0x10000, 0x10000, 0x10000, 0x10000, 0x10000, 0x10000, 0x10000,
   0x10000, 0x10000, 0x10000, 0x10000, 0x10000, 0x10000, 0x10000,
   0x10000, 0x10000, 0x10000,
   0x08000,
   0x02000, 0x02000,
   0x04000]

def blockLen (i : Nat) : Nat := BLOCK_LENGTHS.getD i 0

def BANK_SIZE : Nat := 0x4000

def TOTAL_SIZE : Nat := BANK_SIZE * 128

/-- The loop body of generate_block_mappings: for each remaining bank, record
the pair (block_index, bank_offset); when the loop guard block_index < 35
fails, the remaining entries keep the default (0, 0). -/
def buildMappings : Nat → Nat → Nat → List (Nat × Nat)
  | 0, _, _ => []
  | n + 1, block_index, offset_in_block =>
    if block_index < 35 then
      (block_index, offset_in_block) ::
        (if offset_in_block + 0x4000 ≥ blockLen block_index then
          buildMappings n (block_index + 1) 0
        else
          buildMappings n block_index (offset_in_block + 0x4000))
    else
      List.replicate (n + 1) (0, 0)

/-- Compile-time mapping of the 128 banks to (block index, offset in block). -/
def BLOCK_MAPPINGS : List (Nat × Nat) := buildMappings 128 0 0

def blockIndexOfBank (bank : Nat) : Nat := (BLOCK_MAPPINGS.getD bank (0, 0)).1

structure FlashInput where
  address : Nat
  data : Nat
deriving DecidableEq, Repr

inductive FlashCommand where
  | ReadArray
  | Program (address : Nat) (data : Nat)
  | UnlockBypassEnter
  | UnlockBypassProgram (address : Nat) (data : Nat)
  | UnlockBypassReset
  | ChipErase
  | BlockErase (addr : Nat)
  | Unknown
deriving DecidableEq, Repr

/-- Parse a flash command from a chronological sequence of write operations
(FlashCommand::from_sequence). Rust match guards on the two unlock-bypass
arms become inner conditionals whose failure falls through to Unknown, which
is what the remaining Rust arms produce for those shapes. -/
def FlashCommand.from_sequence : List FlashInput → FlashCommand
  | ⟨0xAAA, 0xAA⟩ :: ⟨0x555, 0x55⟩ :: ⟨0xAAA, 0x80⟩ ::
    ⟨0xAAA, 0xAA⟩ :: ⟨0x555, 0x55⟩ :: ⟨block_addr, 0x30⟩ :: _ =>
      FlashCommand.BlockErase block_addr
  | ⟨0xAAA, 0xAA⟩ :: ⟨0x555, 0x55⟩ :: ⟨0xAAA, 0xA0⟩ :: ⟨address, data⟩ :: _ =>
      FlashCommand.Program address data
  | ⟨0xAAA, 0xAA⟩ :: ⟨0x555, 0x55⟩ :: ⟨0xAAA, 0x20⟩ :: _ =>
      FlashCommand.UnlockBypassEnter
  | ⟨0xAAA, 0xAA⟩ :: ⟨0x555, 0x55⟩ :: ⟨0xAAA, 0x80⟩ ::
    ⟨0xAAA, 0xAA⟩ :: ⟨0x555, 0x55⟩ :: ⟨0xAAA, 0x10⟩ :: _ =>
      FlashCommand.ChipErase
  | ⟨address, 0xA0⟩ :: ⟨prog_addr, prog_data⟩ :: _ =>
      if address ≠ 0xAAA ∧ address ≠ 0x555 then
        FlashCommand.UnlockBypassProgram prog_addr prog_data
      else FlashCommand.Unknown
  | ⟨addr1, 0x90⟩ :: ⟨_, 0x00⟩ :: _ =>
      if addr1 ≠ 0xAAA ∧ addr1 ≠ 0x555 then
        FlashCommand.UnlockBypassReset
      else FlashCommand.Unknown
  | _ => FlashCommand.Unknown

inductive FlashState where
  | Idle
  | UnlockBypass
  | CommandExecution (command : FlashCommand)
deriving DecidableEq, Repr

structure FlashStateMachine where
  state : FlashState
  buffer : List FlashInput

def FlashStateMachine.new : FlashStateMachine := ⟨FlashState.Idle, []⟩

/-- Try suffix windows of the buffer from size w down to 2
(the loop in detect_command). -/
def detectAux (buffer : List FlashInput) : Nat → Option FlashCommand
  | 0 => none
  | 1 => none
  | w + 2 =>
    let sequence := buffer.drop (buffer.length - (w + 2))
    let command := FlashCommand.from_sequence sequence
    if command ≠ FlashCommand.Unknown then some command
    else detectAux buffer (w + 1)

def FlashStateMachine.detect_command (m : FlashStateMachine) : Option FlashCommand :=
  let len := min m.buffer.length 6
  if len < 2 then none
  else detectAux m.buffer len

/-- Record a write and run the state transitions (FlashStateMachine::add_input);
returns the command to execute, if any, beside the updated machine. -/
def FlashStateMachine.add_input (m : FlashStateMachine) (address data : Nat) :
    Option FlashCommand × FlashStateMachine :=
  let buffer := m.buffer ++ [⟨address, data⟩]
  let buffer := if buffer.length > 6 then buffer.drop (buffer.length - 6) else buffer
  let m := { m with buffer := buffer }
  match m.state with
  | FlashState.Idle =>
    match m.detect_command with
    | some command => (some command, { m with state := FlashState.CommandExecution command })
    | none => (none, m)
  | FlashState.UnlockBypass =>
    if m.buffer.length ≥ 2 then
      match m.buffer.drop (m.buffer.length - 2) with
      | [i0, i1] =>
        if i0.data == 0xA0 then
          (some (FlashCommand.UnlockBypassProgram i1.address i1.data),
           { m with state := FlashState.CommandExecution
                      (FlashCommand.UnlockBypassProgram i1.address i1.data) })
        else if i0.data == 0x90 && i1.data == 0x00 then
          (some FlashCommand.UnlockBypassReset, { m with state := FlashState.Idle })
        else (none, m)
      | _ => (none, m)
    else (none, m)
  | FlashState.CommandExecution _ => (none, { m with state := FlashState.Idle })

/-- slice.fill(0xFF) on the subrange lo..hi of the backing array. -/
def fillRange (d : Nat → Nat) (lo hi : Nat) : Nat → Nat :=
  fun i => if lo ≤ i ∧ i < hi then 0xFF else d i

/-- Write one cell of the backing array. -/
def updAt (d : Nat → Nat) (idx v : Nat) : Nat → Nat :=
  fun i => if i = idx then v else d i

def bank_range_start (bank : Nat) : Nat := bank * BANK_SIZE

/-- The per-bank body of the BlockErase loop, abstracted over the four
precomputed loop parameters; blockEraseData folds exactly this step over
the bank list. -/
def eraseFoldStep (start_bank end_bank start_offset end_offset : Nat)
    (d : Nat → Nat) (bank_index : Nat) : Nat → Nat :=
  if bank_index ≥ 128 then d
  else
    let rs := bank_range_start bank_index
    let re := rs + BANK_SIZE
    if bank_index = start_bank ∧ start_offset ≠ 0 then
      fillRange d (rs + start_offset) re
    else if bank_index = end_bank - 1 ∧ end_offset ≠ 0 then
      fillRange d rs (rs + end_offset)
    else
      fillRange d rs re

/-- The BlockErase arm of execute_command: compute the target block span from
the currently selected bank and fill it bank by bank. -/
def blockEraseData (cartridge_data : Nat → Nat) (bank_mask : Nat) : Nat → Nat :=
  let current_bank := bank_mask &&& 0x7F
  let target_block := blockIndexOfBank current_bank
  let block_start := (BLOCK_LENGTHS.take target_block).sum
  let block_end := block_start + blockLen target_block
  let start_bank := block_start / BANK_SIZE
  let end_bank := (block_end + BANK_SIZE - 1) / BANK_SIZE
  let start_offset := block_start % BANK_SIZE
  let end_offset := block_end % BANK_SIZE
  (List.range' start_bank (end_bank - start_bank)).foldl
    (eraseFoldStep start_bank end_bank start_offset end_offset) cartridge_data

/-- Execute the pending command against the backing byte array
(FlashStateMachine::execute_command). After the command effect the machine
unconditionally returns to Idle and clears its history buffer. -/
def FlashStateMachine.execute_command (m : FlashStateMachine)
    (cartridge_data : Nat → Nat) (bank_mask : Nat) :
    FlashStateMachine × (Nat → Nat) :=
  let step : FlashStateMachine × (Nat → Nat) :=
    match m.state with
    | FlashState.CommandExecution command =>
      match command with
      | FlashCommand.ReadArray => (m, cartridge_data)
      | FlashCommand.Program address data =>
        let bank := bank_mask &&& 0x7F
        let offset := address &&& 0x3FFF
        let idx := bank_range_start bank + offset
        (m, updAt cartridge_data idx (cartridge_data idx &&& data))
      | FlashCommand.UnlockBypassProgram address data =>
        let bank := bank_mask &&& 0x7F
        let offset := address &&& 0x3FFF
        let idx := bank_range_start bank + offset
        (m, updAt cartridge_data idx (cartridge_data idx &&& data))
      | FlashCommand.ChipErase =>
        (m, fillRange cartridge_data 0 TOTAL_SIZE)
      | FlashCommand.BlockErase _ =>
        (m, blockEraseData cartridge_data bank_mask)
      | FlashCommand.UnlockBypassEnter =>
        ({ m with state := FlashState.UnlockBypass }, cartridge_data)
      | FlashCommand.UnlockBypassReset =>
        ({ m with state := FlashState.Idle }, cartridge_data)
      | FlashCommand.Unknown => (m, cartridge_data)
    | _ => (m, cartridge_data)
  ({ step.1 with state := FlashState.Idle, buffer := [] }, step.2)

structure Cartridge2M where
  data : Nat → Nat
  bank_shifter : Nat
  bank_mask : Nat
  flash_state_machine : FlashStateMachine

/-- VIA Port A bit masks (cart2mj21.rs). -/
def CLK : Nat := 0b00000001

def DATA : Nat := 0b00000010

def LATCH : Nat := 0b00000100

/-- VIA register indices IORA and DDRA (values given in the crate root lib.rs
and as VIA_IORA / VIA_DDRA in reg_system_control.rs). -/
def IORA : Nat := 0x1

def DDRA : Nat := 0x3

inductive PaEvent where
  | ClockRisingEdge
  | LatchRisingEdge
  | None
deriving DecidableEq, Repr

/-- Detect rising edge events on Port A signals (fn pa_read). -/
def pa_read (pa_before pa_after : Nat) : PaEvent :=
  let changed := pa_before ^^^ pa_after
  if pa_after &&& CLK ≠ 0 ∧ changed &&& CLK ≠ 0 then PaEvent.ClockRisingEdge
  else if pa_after &&& LATCH ≠ 0 ∧ changed &&& LATCH ≠ 0 then PaEvent.LatchRisingEdge
  else PaEvent.None

/-- Extract the data bit (PA1) from Port A (fn pa_data_bit). -/
def pa_data_bit (pa : Nat) : Nat := (pa &&& DATA) >>> 1

def Cartridge2M.from_slice (slice : List Nat) : Cartridge2M :=
  { data := fun i => if i < min slice.length TOTAL_SIZE then slice.getD i 0 else 0
    bank_shifter := 0
    bank_mask := 0x7E
    flash_state_machine := FlashStateMachine.new }

def Cartridge2M.read_byte (c : Cartridge2M) (address : Nat) : Nat :=
  if 0x4000 ≤ address ∧ address ≤ 0x7FFF then
    c.data (bank_range_start 0x7F + (address &&& 0x3FFF))
  else if address ≤ 0x3FFF then
    c.data (bank_range_start (c.bank_mask &&& 0x7F) + (address &&& 0x3FFF))
  else 0

def Cartridge2M.write_byte (c : Cartridge2M) (address data : Nat) : Cartridge2M :=
  let r := c.flash_state_machine.add_input address data
  match r.1 with
  | some _ =>
    let e := r.2.execute_command c.data c.bank_mask
    { c with flash_state_machine := e.1, data := e.2 }
  | none => { c with flash_state_machine := r.2 }

def Cartridge2M.update_via (c : Cartridge2M) (before after : Nat → Nat) : Cartridge2M :=
  if after DDRA == 1 then c
  else
    let pa_before := before IORA
    let pa_after := after IORA
    match pa_read pa_before pa_after with
    | PaEvent.ClockRisingEdge =>
      { c with bank_shifter := ((c.bank_shifter <<< 1) % 256) ||| pa_data_bit pa_after }
    | PaEvent.LatchRisingEdge => { c with bank_mask := c.bank_shifter }
    | PaEvent.None => c

/-! ## Cartridge variants (cartridges/mod.rs)

The static 8K/16K/32K cartridge files are absent from the sources. Modelled
from the spec: they are plain byte-array ROM variants whose from_slice stores
the image bytes; reads return the stored byte. Only their construction is
relied on by the claims. -/

structure CartridgeStatic where
  data : Nat → Nat

def CartridgeStatic.from_slice (slice : List Nat) : CartridgeStatic :=
  { data := fun i => if i < slice.length then slice.getD i 0 else 0 }

inductive CartridgeType where
  | Cart8k (c : CartridgeStatic)
  | Cart16k (c : CartridgeStatic)
  | Cart32k (c : CartridgeStatic)
  | Cart2m (c : Cartridge2M)

/-- CartridgeType::from_slice; the catch-all arm of the Rust match is a panic
(a fatal configuration error), embedded as none. -/
def CartridgeType.from_slice (slice : List Nat) : Option CartridgeType :=
  if slice.length = 0x2000 then
    some (CartridgeType.Cart8k (CartridgeStatic.from_slice slice))
  else if slice.length = 0x4000 then
    some (CartridgeType.Cart16k (CartridgeStatic.from_slice slice))
  else if slice.length = 0x8000 then
    some (CartridgeType.Cart32k (CartridgeStatic.from_slice slice))
  else if slice.length = 0x200000 then
    some (CartridgeType.Cart2m (Cartridge2M.from_slice slice))
  else none

def CartridgeType.read_byte (c : CartridgeType) (address : Nat) : Nat :=
  match c with
  | CartridgeType.Cart8k c => c.data address
  | CartridgeType.Cart16k c => c.data address
  | CartridgeType.Cart32k c => c.data address
  | CartridgeType.Cart2m c => c.read_byte address

def CartridgeType.write_byte (c : CartridgeType) (address data : Nat) : CartridgeType :=
  match c with
  | CartridgeType.Cart2m cc => CartridgeType.Cart2m (cc.write_byte address data)
  | other => other

def CartridgeType.update_via (c : CartridgeType) (before after : Nat → Nat) : CartridgeType :=
  match c with
  | CartridgeType.Cart2m cc => CartridgeType.Cart2m (cc.update_via before after)
  | other => other

/-! ## CPU bus (gametank_bus/cpu_bus.rs)

The audio RAM, a global static in the Rust sources, is embedded as an owned
field of the bus. -/

inductive ByteDecorator where
  | ZeroPage (b : Nat)
  | CpuStack (b : Nat)
  | SystemRam (b : Nat)
  | AudioRam (b : Nat)
  | Vram (b : Nat)
  | Framebuffer (b : Nat)
  | Aram (b : Nat)
  | Unreadable (b : Nat)
deriving DecidableEq, Repr

structure CpuBus where
  system_control : SystemControl
  blitter : BlitterRegisters
  ram_banks : Nat → Nat → Nat
  framebuffers : Nat → Nat → Nat
  vram_banks : Nat → Nat → Nat
  vram_quad_written : Nat → Bool
  aram : Nat → Nat
  cartridge : CartridgeType

/-- Update one cell of a two-level array. -/
def upd2 (f : Nat → Nat → Nat) (a b v : Nat) : Nat → Nat → Nat :=
  fun x y => if x = a ∧ y = b then v else f x y

def CpuBus.write_byte (bus : CpuBus) (address data : Nat) : CpuBus :=
  if address ≤ 0x1FFF then
    { bus with ram_banks := upd2 bus.ram_banks bus.system_control.get_ram_bank address data }
  else if 0x2000 ≤ address ∧ address ≤ 0x2009 then
    { bus with system_control := bus.system_control.write_byte address data }
  else if 0x2800 ≤ address ∧ address ≤ 0x280F then
    let before_reg := bus.system_control.via_regs
    let register := address &&& 0xF
    let after_reg := fun i => if i = register then data else before_reg i
    { bus with
        system_control := { bus.system_control with via_regs := after_reg }
        cartridge := bus.cartridge.update_via before_reg after_reg }
  else if 0x3000 ≤ address ∧ address ≤ 0x3FFF then
    { bus with aram := fun i => if i = address - 0x3000 then data else bus.aram i }
  else if 0x4000 ≤ address ∧ address ≤ 0x7FFF then
    match bus.system_control.get_graphics_memory_map with
    | GraphicsMemoryMap.FrameBuffer =>
      let fb := bus.system_control.banking_register.framebuffer
      { bus with framebuffers := upd2 bus.framebuffers fb (address - 0x4000) data }
    | GraphicsMemoryMap.VRAM =>
      let vram_page := bus.system_control.banking_register.vram_page
      let quadrant := bus.blitter.vram_quadrant
      { bus with
          vram_banks :=
            upd2 bus.vram_banks vram_page (address - 0x4000 + quadrant * (128 * 128)) data
          vram_quad_written := fun i =>
            if i = quadrant + vram_page * 4 then true else bus.vram_quad_written i }
    | GraphicsMemoryMap.BlitterRegisters =>
      { bus with blitter := bus.blitter.write_byte address data }
  else if 0x8000 ≤ address ∧ address ≤ 0xFFFF then
    { bus with cartridge := bus.cartridge.write_byte (address - 0x8000) data }
  else bus

def CpuBus.read_byte (bus : CpuBus) (address : Nat) : Nat × CpuBus :=
  if address ≤ 0x1FFF then
    (bus.ram_banks bus.system_control.get_ram_bank address, bus)
  else if 0x2000 ≤ address ∧ address ≤ 0x2009 then
    let r := bus.system_control.read_byte address
    (r.1, { bus with system_control := r.2 })
  else if 0x2800 ≤ address ∧ address ≤ 0x280F then
    (bus.system_control.via_regs (address &&& 0xF), bus)
  else if 0x3000 ≤ address ∧ address ≤ 0x3FFF then
    (bus.aram (address - 0x3000), bus)
  else if 0x4000 ≤ address ∧ address ≤ 0x7FFF then
    match bus.system_control.get_graphics_memory_map with
    | GraphicsMemoryMap.FrameBuffer =>
      let fb := bus.system_control.banking_register.framebuffer
      (bus.framebuffers fb (address - 0x4000), bus)
    | GraphicsMemoryMap.VRAM =>
      let vram_page := bus.system_control.banking_register.vram_page
      let quadrant := bus.blitter.vram_quadrant
      (bus.vram_banks vram_page (address - 0x4000 + quadrant * (128 * 128)), bus)
    | GraphicsMemoryMap.BlitterRegisters =>
      let r := bus.blitter.read_byte address
      (r.1, { bus with blitter := r.2 })
  else if 0x8000 ≤ address ∧ address ≤ 0xFFFF then
    (bus.cartridge.read_byte (address - 0x8000), bus)
  else (0, bus)

def CpuBus.peek_byte_decorated (bus : CpuBus) (address : Nat) : ByteDecorator :=
  if address ≤ 0x00FF then
    ByteDecorator.ZeroPage (bus.ram_banks bus.system_control.get_ram_bank address)
  else if address ≤ 0x01FF then
    ByteDecorator.CpuStack (bus.ram_banks bus.system_control.get_ram_bank address)
  else if address ≤ 0x1FFF then
    ByteDecorator.SystemRam (bus.ram_banks bus.system_control.get_ram_bank address)
  else if 0x2000 ≤ address ∧ address ≤ 0x2009 then
    ByteDecorator.Unreadable (bus.system_control.peek_byte address)
  else if 0x3000 ≤ address ∧ address ≤ 0x3FFF then
    ByteDecorator.AudioRam (bus.aram (address - 0x3000))
  else if 0x4000 ≤ address ∧ address ≤ 0x7FFF then
    match bus.system_control.get_graphics_memory_map with
    | GraphicsMemoryMap.FrameBuffer =>
      let fb := bus.system_control.banking_register.framebuffer
      ByteDecorator.Framebuffer (bus.framebuffers fb (address - 0x4000))
    | GraphicsMemoryMap.VRAM =>
      let vram_page := bus.system_control.banking_register.vram_page
      let quadrant := bus.blitter.vram_quadrant
      ByteDecorator.Vram (bus.vram_banks vram_page (address - 0x4000 + quadrant * (128 * 128)))
    | GraphicsMemoryMap.BlitterRegisters => ByteDecorator.Unreadable 0
  else ByteDecorator.Unreadable 0

def CpuBus.vblank_nmi_enabled (bus : CpuBus) : Bool :=
  bus.system_control.dma_flags.dma_nmi

/-! ## Blitter DMA engine (blitter.rs) -/

structure Blitter where
  src_y : Nat
  dst_y : Nat
  height : Nat
  flip_y : Bool
  src_x : Nat
  dst_x : Nat
  width : Nat
  flip_x : Bool
  offset_x : Nat
  offset_y : Nat
  color_fill : Bool
  color : Nat
  blitting : Bool
  cycles : Int
  irq_trigger : Bool

def Blitter.default : Blitter :=
  { src_y := 0, dst_y := 0, height := 0, flip_y := false
    src_x := 0, dst_x := 0, width := 0, flip_x := false
    offset_x := 0, offset_y := 0
    color_fill := false, color := 0
    blitting := false, cycles := 0, irq_trigger := false }

def Blitter.clear_irq_trigger (self : Blitter) : Bool × Blitter :=
  (self.irq_trigger, { self with irq_trigger := false })

/-- The source-pixel fetch of copy mode, given the latched state and the bus. -/
def blitCopySourceColor (self : Blitter) (bus : CpuBus) : Nat :=
  let vram_page := bus.system_control.banking_register.vram_page
  let src_x_mod := self.src_x
  let src_y_mod := self.src_y
  let src_x_mod := if self.flip_x then u8not src_x_mod else src_x_mod
  let blit_src_x :=
    if self.flip_x then u8sub src_x_mod self.offset_x else u8add src_x_mod self.offset_x
  let src_y_mod := if self.flip_y then u8not src_y_mod else src_y_mod
  let blit_src_y :=
    if self.flip_y then u8sub src_y_mod self.offset_y else u8add src_y_mod self.offset_y
  let blit_src_x :=
    if !bus.system_control.dma_flags.dma_gcarry then u8add src_x_mod (self.offset_x % 16)
    else blit_src_x
  let blit_src_y :=
    if !bus.system_control.dma_flags.dma_gcarry then u8add src_y_mod (self.offset_y % 16)
    else blit_src_y
  let quad := (if blit_src_x ≥ 128 then 128 * 128 - 128 else 0) +
              (if blit_src_y ≥ 128 then 128 * 128 else 0)
  bus.vram_banks vram_page (blit_src_x + blit_src_y * 128 + quad)

/-- The start phase of Blitter::cycle: consume the start register, clear the
IRQ trigger when the start address was touched, and latch the blit
parameters on a rising start while idle. -/
def Blitter.startPhase (self : Blitter) (bus : CpuBus) : Blitter × CpuBus :=
  let ro := bus.blitter.start.read_once
  let bit_start := ro.1.1
  let start_addressed := ro.1.2
  let bus := { bus with blitter := { bus.blitter with start := ro.2 } }
  let self := if start_addressed then { self with irq_trigger := false } else self
  let self :=
    if !self.blitting && bit_start then
      { self with
          src_y := bus.blitter.gy
          dst_y := bus.blitter.vy
          height := bus.blitter.height &&& 0b01111111
          flip_y := bus.blitter.height &&& 0b10000000 != 0
          color := u8not bus.blitter.color
          color_fill := bus.system_control.dma_flags.dma_colorfill_enable
          blitting := true
          cycles := 0
          src_x := bus.blitter.gx
          dst_x := bus.blitter.vx
          width := bus.blitter.width &&& 0b01111111
          flip_x := bus.blitter.width &&& 0b10000000 != 0 }
    else self
  (self, bus)

/-- The stepping phase of Blitter::cycle, reached only while Blitting:
reload the y parameters at a line start, wrap the cursor, detect
completion, and emit at most one pixel write. -/
def Blitter.blitStep (self : Blitter) (bus : CpuBus) : Blitter × CpuBus :=
    let self :=
      if self.offset_x == 0 then
        { self with
            src_y := bus.blitter.gy
            dst_y := bus.blitter.vy
            height := bus.blitter.height &&& 0b01111111
            flip_y := bus.blitter.height &&& 0b10000000 != 0 }
      else self
    let self :=
      if self.offset_x ≥ self.width then
        { self with offset_x := 0, offset_y := u8add self.offset_y 1 }
      else self
    if self.offset_y ≥ self.height then
      let self := { self with offset_y := 0, blitting := false }
      let self :=
        if bus.system_control.dma_flags.dma_irq then { self with irq_trigger := true }
        else self
      (self, bus)
    else
      let self := { self with cycles := self.cycles + 1 }
      if !bus.system_control.dma_flags.dma_enable then
        ({ self with offset_x := u8add self.offset_x 1 }, bus)
      else
        let color := if self.color_fill then self.color else blitCopySourceColor self bus
        let out_x := u8add self.dst_x self.offset_x
        let out_y := u8add self.dst_y self.offset_y
        let out_fb := if bus.system_control.get_framebuffer_out == 1 then 0 else 1
        if out_x ≥ 128 ∨ out_y ≥ 128 then
          ({ self with offset_x := u8add self.offset_x 1 }, bus)
        else
          let bus :=
            if bus.system_control.dma_flags.dma_opaque || color != 0 then
              { bus with
                  framebuffers := upd2 bus.framebuffers out_fb (out_x + out_y * 128) color }
            else bus
          ({ self with offset_x := u8add self.offset_x 1 }, bus)

/-- One blitter engine cycle (Blitter::cycle): the start phase, then an
early return while not Blitting, then the stepping phase. -/
def Blitter.cycle (self : Blitter) (bus : CpuBus) : Blitter × CpuBus :=
  let sp := self.startPhase bus
  let self := sp.1
  let bus := sp.2
  if !self.blitting then (self, bus)
  else self.blitStep bus

/-- Iterate the blitter engine for n cycles against the bus. -/
def runBlitter : Nat → Blitter × CpuBus → Blitter × CpuBus
  | 0, s => s
  | n + 1, s => runBlitter n (Blitter.cycle s.1 s.2)

/-- GamePad::default. Modelled from the spec: inputs.rs is absent; a default
controller has no button pressed and a cleared port-select latch. -/
def GamePad.default : GamePad :=
  { port_select := false, up := false, down := false, left := false, right := false,
    b := false, a := false, start := false, c := false }

/-- CpuBus::default. The framebuffers start as one buffer of 0x00 bytes and
one of 0xFF bytes; the default cartridge image is 0x2000 zero bytes, an 8K
cartridge. -/
def CpuBus.default : CpuBus :=
  { system_control :=
      { reset_acp := 0, nmi_acp := 0, banking_register := ⟨0⟩,
        via_regs := fun _ => 0, audio_enable_sample_rate := 0,
        dma_flags := ⟨0b01111111⟩, gamepads := fun _ => GamePad.default }
    blitter :=
      { vx := 0, vy := 0, gx := 0, gy := 0, width := 127, height := 127,
        start := ⟨0, false⟩, color := 0b10100000 }
    ram_banks := fun _ _ => 0
    framebuffers := fun i _ => if i == 0 then 0x00 else 0xFF
    vram_banks := fun _ _ => 0
    vram_quad_written := fun _ => false
    aram := fun _ => 0
    cartridge := CartridgeType.Cart8k (CartridgeStatic.from_slice (List.replicate 0x2000 0)) }

/-! ## Erase-span helpers for the block erase loop -/

/-- Low end of the byte range the loop body fills for a given bank. -/
def eraseLo (start_bank start_offset k : Nat) : Nat :=
  if k = start_bank ∧ start_offset ≠ 0 then k * BANK_SIZE + start_offset
  else k * BANK_SIZE

/-- High end of the byte range the loop body fills for a given bank. -/
def eraseHi (start_bank end_bank start_offset end_offset k : Nat) : Nat :=
  if k = start_bank ∧ start_offset ≠ 0 then k * BANK_SIZE + BANK_SIZE
  else if k = end_bank - 1 ∧ end_offset ≠ 0 then k * BANK_SIZE + end_offset
  else k * BANK_SIZE + BANK_SIZE

/-- First byte of the block owning the given bank, from the block table. -/
def blockStartOfBank (bank : Nat) : Nat :=
  (BLOCK_LENGTHS.take (blockIndexOfBank bank)).sum

/-- One past the last byte of the block owning the given bank. -/
def blockEndOfBank (bank : Nat) : Nat :=
  blockStartOfBank bank + blockLen (blockIndexOfBank bank)

/-- The flash cell a byte-program command targets, given the bank mask and
the programmed address. -/
def programTargetIndex (bank_mask address : Nat) : Nat :=
  bank_range_start (bank_mask &&& 0x7F) + (address &&& 0x3FFF)

/-- Decidable bundle of side conditions of the block table needed by the
erase-span characterization, checked per bank. -/
def eraseShapeOk (bank : Nat) : Bool :=
  let bs := blockStartOfBank bank
  let be := blockEndOfBank bank
  decide (bs < be) && decide (be ≤ 0x200000) &&
    (decide (bs % BANK_SIZE = 0) || decide (be % BANK_SIZE = 0) ||
     decide (bs / BANK_SIZE + 1 < (be + BANK_SIZE - 1) / BANK_SIZE))

/-! ## W65C02S ADC / SBC (gte-w65c02s/src/instructions.rs)

The CPU crate root that declares the status-bit constants and the
cnz_p / nz_p flag helpers is absent from the sources. Modelled from the
spec: the status flags are N,V,B,D,I,Z,C in the standard 6502 bit layout,
and cnz_p / nz_p set carry from a boolean and negative/zero from a result
byte. The adc / sbc bodies below embed the instruction arithmetic on an
already-fetched operand; the addressing-mode plumbing and interrupt-edge
checks of the Rust methods do not touch the arithmetic and are elided. -/

def P_C : Nat := 0x01

def P_Z : Nat := 0x02

def P_I : Nat := 0x04

def P_D : Nat := 0x08

def P_B : Nat := 0x10

def P_V : Nat := 0x40

def P_N : Nat := 0x80

/-- Set or clear one status bit. -/
def setFlag (p flag : Nat) (b : Bool) : Nat :=
  if b then p ||| flag else p &&& u8not flag

/-- Modelled from the spec: set carry from the boolean, negative and zero
from the result byte. -/
def cnz_p (p : Nat) (carry : Bool) (value : Nat) : Nat :=
  setFlag (setFlag (setFlag p P_C carry) P_N (value &&& 0x80 != 0)) P_Z (value == 0)

/-- Modelled from the spec: set negative and zero from the result byte. -/
def nz_p (p : Nat) (value : Nat) : Nat :=
  setFlag (setFlag p P_N (value &&& 0x80 != 0)) P_Z (value == 0)

/-- Wrapping u16 addition. -/
def u16add (a b : Nat) : Nat := (a + b) % 65536

/-- Wrapping u16 subtraction. -/
def u16sub (a b : Nat) : Nat := (a % 65536 + 65536 - b % 65536) % 65536

/-- The Rust cast chain as i8 as u16 (sign extension of a byte to 16 bits). -/
def sext16 (x : Nat) : Nat := if x &&& 0x80 ≠ 0 then x ||| 0xFF00 else x

/-- W65C02S::adc arithmetic: from accumulator, status byte and fetched
operand to the new accumulator and status byte. -/
def W65C02S.adc (a p red : Nat) : Nat × Nat :=
  if p &&& P_D ≠ 0 then
    let al := u8add (u8add (a &&& 0xF) (red &&& 0xF)) (if p &&& P_C ≠ 0 then 1 else 0)
    let al := if al > 9 then (u8add al 6 &&& 0xF) ||| 0x10 else al
    let val := u16add (u16add (sext16 a &&& 0xFFF0) (sext16 red &&& 0xFFF0)) al
    let p := if val ≥ 0x80 ∧ val < 0xFF80 then p ||| P_V else p &&& u8not P_V
    let val := u16add (u16add (a &&& 0xF0) (red &&& 0xF0)) al
    let val := if val > 0x9F then u16add val 0x60 ||| 0x100 else val
    (val % 256, cnz_p p (decide (val ≥ 0x100)) (val % 256))
  else
    let val := u16add a red
    let val := if p &&& P_C ≠ 0 then u16add val 1 else val
    let p := if (a ^^^ val % 256) &&& (red ^^^ val % 256) &&& 0x80 ≠ 0 then p ||| P_V
             else p &&& u8not P_V
    (val % 256, cnz_p p (decide (val ≥ 0x100)) (val % 256))

/-- W65C02S::sbc arithmetic: from accumulator, status byte and fetched
operand to the new accumulator and status byte. -/
def W65C02S.sbc (a p red : Nat) : Nat × Nat :=
  if p &&& P_D ≠ 0 then
    let al := u8sub (u8sub (a &&& 0xF) (red &&& 0xF)) (if p &&& P_C ≠ 0 then 0 else 1)
    let val := u16sub (u16sub a red) (if p &&& P_C ≠ 0 then 0 else 1)
    let p := if (a ^^^ val) &&& (red ^^^ 0xFF ^^^ val) &&& 0x80 ≠ 0 then p ||| P_V
             else p &&& u8not P_V
    let vp : Nat × Nat :=
      if val &&& 0x8000 ≠ 0 then (u16sub val 0x60, p &&& u8not P_C) else (val, p ||| P_C)
    let val := vp.1
    let p := vp.2
    let val := if al ≥ 0x80 then u16sub val 0x06 else val
    let p := nz_p p (val % 256)
    (val % 256, p)
  else
    let red := red ^^^ 0xFF
    let val := u16add a red
    let val := if p &&& P_C ≠ 0 then u16add val 1 else val
    let p := if (a ^^^ val % 256) &&& (red ^^^ val % 256) &&& 0x80 ≠ 0 then p ||| P_V
             else p &&& u8not P_V
    let p := cnz_p p (decide (val ≥ 0x100)) (val % 256)
    (val % 256, p)

/-! ## Reference model of decimal arithmetic (documented 6502 BCD rules) -/

/-- Decimal value of a BCD-encoded byte. -/
def bcdValue (x : Nat) : Nat := x / 16 * 10 + x % 16

/-- BCD encoding of a two-digit decimal value. -/
def toBcd (n : Nat) : Nat := n / 10 * 16 + n % 10

/-- Documented decimal-mode overflow for ADC. The signed sum s of the two
sign-extended high nibbles and the 0x06-adjusted low-nibble sum must lie in
the signed byte range [-128, 127]. To stay in Nat, s is represented biased
by 512 (sign extension of a byte x subtracts 256 exactly when x ≥ 0x80), so
overflow means the biased sum lies outside [512 - 128, 512 + 127]. -/
def adcDecimalSpecV (a b cin : Nat) : Bool :=
  let al := a % 16 + b % 16 + cin
  let al := if al > 9 then (al + 6) % 16 + 16 else al
  let s := 512 + (a - a % 16) + (b - b % 16) + al
             - ((if a ≥ 0x80 then 256 else 0) + (if b ≥ 0x80 then 256 else 0))
  decide (s < 512 - 128 ∨ 512 + 127 < s)

/-- Documented overflow for SBC: signed overflow of the binary difference
a - b - borrow, again represented biased by 512. -/
def sbcSpecV (a b cin : Nat) : Bool :=
  let s := 512 + a + (if b ≥ 0x80 then 256 else 0)
             - ((if a ≥ 0x80 then 256 else 0) + b + (1 - cin))
  decide (s < 512 - 128 ∨ 512 + 127 < s)

/-- Check one decimal ADC case against the documented rules: accumulator is
the BCD sum modulo 100, carry is the decimal carry out, overflow follows the
documented adjustment rule. The status byte has D set and C as given. -/
def adcDecimalOk (a b : Nat) (cin : Bool) : Bool :=
  let p := P_D ||| (if cin then P_C else 0)
  let total := bcdValue a + bcdValue b + b2n cin
  match W65C02S.adc a p b with
  | (acc, pOut) =>
    (acc == toBcd (total % 100)) &&
    ((pOut &&& (P_C ||| P_V)) ==
      ((if decide (total ≥ 100) then P_C else 0) |||
       (if adcDecimalSpecV a b (b2n cin) then P_V else 0)))

/-- Check one decimal SBC case against the documented rules: accumulator is
the BCD difference modulo 100 (the subtrahend includes the borrow), carry is
the no-borrow flag, overflow is the signed overflow of the binary
difference. -/
def sbcDecimalOk (a b : Nat) (cin : Bool) : Bool :=
  let p := P_D ||| (if cin then P_C else 0)
  let va := bcdValue a
  let vb := bcdValue b + (1 - b2n cin)
  match W65C02S.sbc a p b with
  | (acc, pOut) =>
    (acc == toBcd ((100 + va - vb) % 100)) &&
    ((pOut &&& (P_C ||| P_V)) ==
      ((if decide (va ≥ vb) then P_C else 0) |||
       (if sbcSpecV a b (b2n cin) then P_V else 0)))

/-- Exhaustive decimal-mode check over every pair of BCD operands and both
carry-in values, for ADC and SBC. -/
def bcdAllCasesOk : Bool :=
  (List.range 100).all fun x => (List.range 100).all fun y =>
    [false, true].all fun cin =>
      adcDecimalOk (toBcd x) (toBcd y) cin && sbcDecimalOk (toBcd x) (toBcd y) cin

/-! ## Scheduler cycle budget (emulator.rs, process_cycles)

Modelled from the source with f64 arithmetic carried out in ℚ and the
Rust as-i32 cast embedded as integer truncation toward zero; the constants
involved are exactly representable and the comparisons are far from any
rounding boundary. -/

def cpu_frequency_hz : ℚ := 3579545

def cpu_ns_per_cycle : ℚ := 1000000000 / cpu_frequency_hz

/-- Truncation toward zero, the Rust as-i32 cast for in-range values. -/
def ratTruncToInt (q : ℚ) : ℤ := q.num.tdiv (q.den : ℤ)

/-- The clamp applied to the elapsed wall-clock milliseconds: deltas above
33 ms collapse to 16.667 ms. -/
def clampedElapsedMs (elapsed_ms : ℚ) : ℚ :=
  if elapsed_ms > 33 then 16667 / 1000 else elapsed_ms

/-- CPU cycle budget computed by process_cycles for one tick from the
elapsed wall-clock milliseconds. -/
def processCyclesBudget (elapsed_ms : ℚ) : ℤ :=
  let elapsed_ns := clampedElapsedMs elapsed_ms * 1000000
  ratTruncToInt (elapsed_ns / cpu_ns_per_cycle)

/-! ## Concrete scenario states -/

/-- C1 scenario: on the default bus, select blitter registers with color
fill and blit IRQ enabled (flag byte 0x49), then program a 10 by 10 fill to
destination (5, 7) with color register 0x12 and write the start register,
all through bus writes. -/
def c1Bus : CpuBus :=
  let b := CpuBus.default.write_byte 0x2007 0x49
  let b := b.write_byte 0x4000 5
  let b := b.write_byte 0x4001 7
  let b := b.write_byte 0x4004 10
  let b := b.write_byte 0x4005 10
  let b := b.write_byte 0x4007 0x12
  b.write_byte 0x4006 1

/-- State after n blitter engine cycles in the C1 scenario. -/
def c1Run (n : Nat) : Blitter × CpuBus := runBlitter n (Blitter.default, c1Bus)

/-- Whether the 10 by 10 destination rectangle of the back framebuffer holds
the latched fill color 0xED (the complement of register value 0x12) after n
engine cycles of the C1 scenario. -/
def c1RectFilled (n : Nat) : Bool :=
  (List.range 10).all fun i => (List.range 10).all fun j =>
    (c1Run n).2.framebuffers 1 ((5 + i) + (7 + j) * 128) == 0xED

/-- C7 counterexample cartridge: the reset state of a 2MB cartridge (shadow
shift register 0, bank mask 0x7E). -/
def c7Cart : Cartridge2M :=
  { data := fun _ => 0, bank_shifter := 0, bank_mask := 0x7E,
    flash_state_machine := FlashStateMachine.new }

/-- VIA register file with every register zero. -/
def c7Before : Nat → Nat := fun _ => 0

/-- VIA register file after one port A write of 0x05: clock and latch lines
both rise in the same write. -/
def c7After : Nat → Nat := fun i => if i = IORA then 5 else 0

/-- C10 scenario: default bus with the start button of the first controller
held down. -/
def c10Bus : CpuBus :=
  { CpuBus.default with
      system_control :=
        { CpuBus.default.system_control with
            gamepads := fun j =>
              if j == false then { GamePad.default with start := true }
              else GamePad.default } }

/-- One decimal test case, indexed by n < 20000: operands toBcd (n / 200)
and toBcd ((n / 2) % 100), carry-in n % 2. -/
def bcdPair (n : Nat) : Bool :=
  let x := toBcd (n / 200)
  let y := toBcd ((n / 2) % 100)
  let cin := n % 2 == 1
  adcDecimalOk x y cin && sbcDecimalOk x y cin

/-- All decimal test cases with index in [lo, lo + k). -/
def bcdFromTo : Nat → Nat → Bool
  | _, 0 => true
  | lo, k + 1 => bcdPair (lo + k) && bcdFromTo lo k

/-- Flash data after executing a pending normal byte-program command. -/
def progExec (buf : List FlashInput) (address pd bank_mask : Nat)
    (d : Nat → Nat) : Nat → Nat :=
  ((⟨FlashState.CommandExecution (FlashCommand.Program address pd), buf⟩ :
      FlashStateMachine).execute_command d bank_mask).2

/-- Flash data after executing a pending unlock-bypass program command. -/
def progExecUB (buf : List FlashInput) (address pd bank_mask : Nat)
    (d : Nat → Nat) : Nat → Nat :=
  ((⟨FlashState.CommandExecution (FlashCommand.UnlockBypassProgram address pd), buf⟩ :
      FlashStateMachine).execute_command d bank_mask).2

/-- Flash data after executing a pending block-erase command. -/
def blockEraseExec (buf : List FlashInput) (addr bank_mask : Nat)
    (d : Nat → Nat) : Nat → Nat :=
  ((⟨FlashState.CommandExecution (FlashCommand.BlockErase addr), buf⟩ :
      FlashStateMachine).execute_command d bank_mask).2

/-!
# Theorems
-/

/-- C1: starting a color-fill blit with width 10 and height 10 through the
bus and then running exactly 100 blitter engine cycles does NOT return the
engine to Idle, and the blit-complete trigger is still clear, even though
the IRQ-enable DMA flag is set in the scenario: the engine detects
completion only on the following cycle. This refutes the claim as stated. -/
theorem blit_100_cycles_engine_still_blitting :
    (c1Run 100).1.blitting = true ∧ (c1Run 100).1.irq_trigger = false := by
  decide!

/-- C1 amended: after 100 engine cycles the whole 10 by 10 destination
rectangle of the back framebuffer already holds the latched fill color, but
the engine is still Blitting with the trigger clear; the 101st cycle
returns the engine to Idle and, the IRQ-enable DMA flag being set, raises
the blit-complete trigger, leaving the rectangle filled. -/
theorem blit_fill_10x10_idle_on_cycle_101 :
    c1RectFilled 100 = true ∧
    (c1Run 100).1.blitting = true ∧
    (c1Run 100).1.irq_trigger = false ∧
    c1RectFilled 101 = true ∧
    (c1Run 101).1.blitting = false ∧
    (c1Run 101).1.irq_trigger = true := by
  decide!

/-- C2: a wall-clock delta of 20 ms is larger than one nominal video frame
(16.667 ms), yet the scheduler budget for it is 71590 cycles, the raw
conversion of 20 ms, not the one-frame budget 59660: deltas between one and
two frames are not clamped. This refutes the claim as stated. -/
theorem budget_20ms_uses_raw_elapsed_time :
    (16667 / 1000 : ℚ) < 20 ∧
    processCyclesBudget 20 = 71590 ∧
    processCyclesBudget (16667 / 1000) = 59660 ∧
    (71590 : ℤ) ≠ 59660 := by
  refine ⟨by norm_num, ?_, ?_, by decide⟩
  · have h : clampedElapsedMs 20 * 1000000 / cpu_ns_per_cycle = 715909 / 10 := by
      norm_num [clampedElapsedMs, cpu_ns_per_cycle, cpu_frequency_hz]
    simp only [processCyclesBudget, ratTruncToInt, h]
    have hn : (715909 / 10 : ℚ).num = 715909 := by norm_num
    have hd : (715909 / 10 : ℚ).den = 10 := by norm_num
    rw [hn, hd]
    decide
  · have h : clampedElapsedMs (16667 / 1000) * 1000000 / cpu_ns_per_cycle
        = 11932055303 / 200000 := by
      norm_num [clampedElapsedMs, cpu_ns_per_cycle, cpu_frequency_hz]
    simp only [processCyclesBudget, ratTruncToInt, h]
    have hn : (11932055303 / 200000 : ℚ).num = 11932055303 := by norm_num
    have hd : (11932055303 / 200000 : ℚ).den = 200000 := by norm_num
    rw [hn, hd]
    decide

/-- C2 amended: the scheduler clamps only wall-clock deltas above 33 ms
(about two frames) to the one-frame budget; any delta of at most 33 ms,
including those between one and two frames, is converted raw. -/
theorem budget_clamped_only_above_33ms :
    (∀ d : ℚ, 33 < d → processCyclesBudget d = processCyclesBudget (16667 / 1000)) ∧
    (∀ d : ℚ, d ≤ 33 →
      processCyclesBudget d = ratTruncToInt (d * 1000000 / cpu_ns_per_cycle)) := by
  constructor
  · intro d hd
    simp only [processCyclesBudget, clampedElapsedMs]
    rw [if_pos hd, if_neg (by norm_num)]
  · intro d hd
    simp only [processCyclesBudget, clampedElapsedMs]
    rw [if_neg (not_lt.mpr hd)]

/-- C2 amended, witness: a 40 ms delta is clamped to the one-frame budget. -/
theorem budget_clamped_only_above_33ms_witness :
    processCyclesBudget 40 = processCyclesBudget (16667 / 1000) :=
  budget_clamped_only_above_33ms.1 40 (by norm_num)

/-- C3: executing a byte-program flash command, normal or unlock-bypass,
replaces the targeted cell by the bitwise AND of its old value with the
written byte and leaves every other cell unchanged; consequently a
previously erased (0xFF) cell takes exactly the written byte, a programmed
cell keeps only bits of its old value (AND absorption), and two programs
without an intervening erase AND both data bytes in. -/
theorem flash_byte_program_ands_bits (buf : List FlashInput)
    (address pd pd2 bank_mask : Nat) (d : Nat → Nat) (i : Nat) :
    (progExec buf address pd bank_mask d i
      = if i = programTargetIndex bank_mask address then d i &&& pd else d i) ∧
    (progExecUB buf address pd bank_mask d i
      = if i = programTargetIndex bank_mask address then d i &&& pd else d i) ∧
    (progExec buf address pd bank_mask (updAt d (programTargetIndex bank_mask address) 0xFF)
        (programTargetIndex bank_mask address) = pd % 256) ∧
    (progExec buf address pd bank_mask d (programTargetIndex bank_mask address)
        &&& d (programTargetIndex bank_mask address)
      = progExec buf address pd bank_mask d (programTargetIndex bank_mask address)) ∧
    (progExec buf address pd2 bank_mask (progExec buf address pd bank_mask d)
        (programTargetIndex bank_mask address)
      = d (programTargetIndex bank_mask address) &&& pd &&& pd2) := by
  refine ⟨?_, ?_, ?_, ?_, ?_⟩
  · simp only [progExec, FlashStateMachine.execute_command, updAt, programTargetIndex,
      bank_range_start]
    split_ifs with h <;> simp [h]
  · simp only [progExecUB, FlashStateMachine.execute_command, updAt, programTargetIndex,
      bank_range_start]
    split_ifs with h <;> simp [h]
  · simp only [progExec, FlashStateMachine.execute_command, updAt, programTargetIndex,
      bank_range_start, if_pos rfl]
    rw [Nat.land_comm]
    exact Nat.and_pow_two_sub_one_eq_mod pd 8
  · simp only [progExec, FlashStateMachine.execute_command, updAt, programTargetIndex,
      bank_range_start, if_pos rfl, if_true]
    rw [Nat.land_comm (d _ &&& pd) (d _), ← Nat.land_assoc, Nat.and_self]
  · simp only [progExec, FlashStateMachine.execute_command, updAt, programTargetIndex,
      bank_range_start, if_pos rfl, if_true]

/-- C8: constructing a cartridge from a byte image succeeds exactly for the
image sizes 0x2000, 0x4000, 0x8000 and 0x200000, yielding the 8K, 16K, 32K
and 2MB-flash variants respectively; every other size hits the panicking
catch-all (none), aborting initialization without a cartridge. -/
theorem cartridge_from_slice_size_dispatch (slice : List Nat) :
    ((CartridgeType.from_slice slice).isSome ↔
      slice.length = 0x2000 ∨ slice.length = 0x4000 ∨
      slice.length = 0x8000 ∨ slice.length = 0x200000) ∧
    (slice.length = 0x2000 →
      CartridgeType.from_slice slice
        = some (CartridgeType.Cart8k (CartridgeStatic.from_slice slice))) ∧
    (slice.length = 0x4000 →
      CartridgeType.from_slice slice
        = some (CartridgeType.Cart16k (CartridgeStatic.from_slice slice))) ∧
    (slice.length = 0x8000 →
      CartridgeType.from_slice slice
        = some (CartridgeType.Cart32k (CartridgeStatic.from_slice slice))) ∧
    (slice.length = 0x200000 →
      CartridgeType.from_slice slice
        = some (CartridgeType.Cart2m (Cartridge2M.from_slice slice))) := by
  unfold CartridgeType.from_slice
  split_ifs with h1 h2 h3 h4
  · exact ⟨by simp [h1], fun _ => rfl, fun h => absurd (h1.symm.trans h) (by decide),
      fun h => absurd (h1.symm.trans h) (by decide), fun h => absurd (h1.symm.trans h) (by decide)⟩
  · exact ⟨by simp [h2], fun h => absurd (h2.symm.trans h) (by decide), fun _ => rfl,
      fun h => absurd (h2.symm.trans h) (by decide), fun h => absurd (h2.symm.trans h) (by decide)⟩
  · exact ⟨by simp [h3], fun h => absurd (h3.symm.trans h) (by decide),
      fun h => absurd (h3.symm.trans h) (by decide), fun _ => rfl,
      fun h => absurd (h3.symm.trans h) (by decide)⟩
  · exact ⟨by simp [h4], fun h => absurd (h4.symm.trans h) (by decide),
      fun h => absurd (h4.symm.trans h) (by decide), fun h => absurd (h4.symm.trans h) (by decide),
      fun _ => rfl⟩
  · exact ⟨by simp [h1, h2, h3, h4], fun h => absurd h h1, fun h => absurd h h2,
      fun h => absurd h h3, fun h => absurd h h4⟩

/-- C8, witness: a 16K image yields the 16K variant, and a 3-byte image is
rejected. -/
theorem cartridge_from_slice_size_dispatch_witness :
    (CartridgeType.from_slice (List.replicate 0x4000 0)).isSome ∧
    ¬ (CartridgeType.from_slice [1, 2, 3]).isSome := by
  constructor
  · exact (cartridge_from_slice_size_dispatch (List.replicate 0x4000 0)).1.mpr
      (Or.inr (Or.inl (by rw [List.length_replicate])))
  · intro hs
    have h := (cartridge_from_slice_size_dispatch [1, 2, 3]).1.mp hs
    rcases h with h | h | h | h <;> exact absurd h (by decide)

/-- C10: a bus read of gamepad register 0x2008 (or 0x2009) returns the
byte that the non-mutating peek of the same register computes, clears the
port-select latch of the addressed port (index 1 for 0x2008, index 0 for
0x2009, matching the port_1 argument of read_gamepad_byte) and toggles the
port-select latch of the other port, leaving the button states alone; the
decorated peek returns the same byte wrapped in Unreadable without any
state change (it is a pure function of the bus); concretely, two
consecutive reads of 0x2008 with unchanged buttons return 223 (start group)
then 255 (direction group). -/
theorem gamepad_read_mutates_select_peek_does_not :
    (∀ bus : CpuBus,
      (bus.read_byte 0x2008).1 = bus.system_control.peek_gamepad_byte true ∧
      (bus.read_byte 0x2008).2.system_control.gamepads true
        = { bus.system_control.gamepads true with port_select := false } ∧
      (bus.read_byte 0x2008).2.system_control.gamepads false
        = { bus.system_control.gamepads false with
              port_select := !(bus.system_control.gamepads false).port_select }) ∧
    (∀ bus : CpuBus,
      (bus.read_byte 0x2009).1 = bus.system_control.peek_gamepad_byte false ∧
      (bus.read_byte 0x2009).2.system_control.gamepads false
        = { bus.system_control.gamepads false with port_select := false } ∧
      (bus.read_byte 0x2009).2.system_control.gamepads true
        = { bus.system_control.gamepads true with
              port_select := !(bus.system_control.gamepads true).port_select }) ∧
    (∀ bus : CpuBus,
      bus.peek_byte_decorated 0x2008
        = ByteDecorator.Unreadable (bus.system_control.peek_gamepad_byte true) ∧
      bus.peek_byte_decorated 0x2009
        = ByteDecorator.Unreadable (bus.system_control.peek_gamepad_byte false)) ∧
    ((c10Bus.read_byte 0x2008).1 = 223 ∧
      (((c10Bus.read_byte 0x2008).2).read_byte 0x2008).1 = 255) := by
  refine ⟨?_, ?_, ?_, by decide!⟩
  · intro bus
    refine ⟨rfl, ?_, ?_⟩ <;> rfl
  · intro bus
    refine ⟨rfl, ?_, ?_⟩ <;> rfl
  · intro bus
    exact ⟨rfl, rfl⟩

/-- C7: a single port A write can raise clock and latch in the same
transition; the edge detector then reports only a clock edge, so the latch
rising edge does NOT copy the shadow register into the bank mask. On the
reset-state cartridge (shadow 0, mask 0x7E), writing 0x05 to port A from 0
is a latch rising edge, yet the mask stays 0x7E while the shadow (old and
new) is 0. This refutes the claim as stated. -/
theorem via_simultaneous_clock_latch_skips_commit :
    (c7After IORA &&& LATCH ≠ 0 ∧ (c7Before IORA ^^^ c7After IORA) &&& LATCH ≠ 0) ∧
    pa_read (c7Before IORA) (c7After IORA) = PaEvent.ClockRisingEdge ∧
    c7Cart.bank_shifter = 0 ∧
    (c7Cart.update_via c7Before c7After).bank_shifter = 0 ∧
    (c7Cart.update_via c7Before c7After).bank_mask = 0x7E ∧
    (0x7E : Nat) ≠ 0 := by
  decide!

/-- C7 amended: with the port A direction register not set to 1, a clock
rising edge shifts the current data bit into the low end of the shadow
shift register and leaves the bank mask alone; a latch rising edge commits
the shadow into the bank mask only when no clock rising edge occurs in the
same transition (the clock edge has priority); any other port A transition
changes neither. -/
theorem via_port_a_edge_semantics (c : Cartridge2M) (before after : Nat → Nat)
    (hddra : after DDRA ≠ 1) :
    (after IORA &&& CLK ≠ 0 ∧ (before IORA ^^^ after IORA) &&& CLK ≠ 0 →
      (c.update_via before after).bank_shifter
          = ((c.bank_shifter <<< 1) % 256) ||| pa_data_bit (after IORA) ∧
      (c.update_via before after).bank_mask = c.bank_mask) ∧
    (¬(after IORA &&& CLK ≠ 0 ∧ (before IORA ^^^ after IORA) &&& CLK ≠ 0) →
      after IORA &&& LATCH ≠ 0 ∧ (before IORA ^^^ after IORA) &&& LATCH ≠ 0 →
      (c.update_via before after).bank_mask = c.bank_shifter ∧
      (c.update_via before after).bank_shifter = c.bank_shifter) ∧
    (¬(after IORA &&& CLK ≠ 0 ∧ (before IORA ^^^ after IORA) &&& CLK ≠ 0) →
      ¬(after IORA &&& LATCH ≠ 0 ∧ (before IORA ^^^ after IORA) &&& LATCH ≠ 0) →
      c.update_via before after = c) := by
  have hd : (after DDRA == 1) = false := by
    simp only [beq_eq_false_iff_ne, ne_eq]
    exact hddra
  refine ⟨?_, ?_, ?_⟩
  · intro hclk
    simp only [Cartridge2M.update_via, hd, Bool.false_eq_true, if_false,
      pa_read, if_pos hclk]
    exact ⟨trivial, trivial⟩
  · intro hnclk hlatch
    simp only [Cartridge2M.update_via, hd, Bool.false_eq_true, if_false,
      pa_read, if_neg hnclk, if_pos hlatch]
    exact ⟨trivial, trivial⟩
  · intro hnclk hnlatch
    simp only [Cartridge2M.update_via, hd, Bool.false_eq_true, if_false,
      pa_read, if_neg hnclk, if_neg hnlatch]

/-- C7 amended, witness: a clean clock rising edge (port A 0 to 1) on the
reset-state cartridge with data bit 0 shifts in a 0 and keeps the mask. -/
theorem via_port_a_edge_semantics_witness :
    (c7Cart.update_via c7Before (fun i => if i = IORA then 1 else 0)).bank_shifter
        = ((c7Cart.bank_shifter <<< 1) % 256) |||
            pa_data_bit ((fun i => if i = IORA then 1 else 0) IORA) ∧
    (c7Cart.update_via c7Before (fun i => if i = IORA then 1 else 0)).bank_mask
        = c7Cart.bank_mask :=
  (via_port_a_edge_semantics c7Cart c7Before (fun i => if i = IORA then 1 else 0)
    (by decide)).1 (by decide)

/-- The start phase leaves the bus unchanged apart from consuming the start
register. -/
theorem Blitter.startPhase_snd (self : Blitter) (bus : CpuBus) :
    (Blitter.startPhase self bus).2
      = { bus with blitter := { bus.blitter with start := ⟨0, false⟩ } } := rfl

/-- On a rising start while idle, the start phase latches the complement of
the color register, the colorfill flag, and enters Blitting. -/
theorem Blitter.startPhase_latches (self : Blitter) (bus : CpuBus)
    (hblit : self.blitting = false) (hw : bus.blitter.start.write &&& 1 = 1) :
    (Blitter.startPhase self bus).1.color = u8not bus.blitter.color ∧
    (Blitter.startPhase self bus).1.color_fill
      = bus.system_control.dma_flags.dma_colorfill_enable ∧
    (Blitter.startPhase self bus).1.blitting = true := by
  cases haddr : bus.blitter.start.addressed <;>
    simp [Blitter.startPhase, BlitStart.read_once, haddr, hblit, hw]

/-- The stepping phase never changes the latched color or fill mode. -/
theorem Blitter.blitStep_keeps_color (s : Blitter) (bus : CpuBus) :
    (Blitter.blitStep s bus).1.color = s.color ∧
    (Blitter.blitStep s bus).1.color_fill = s.color_fill := by
  simp only [Blitter.blitStep]
  split_ifs <;> exact ⟨rfl, rfl⟩

/-- In fill mode, any framebuffer byte the stepping phase changes is set to
the latched color. -/
theorem Blitter.blitStep_fill_write (s : Blitter) (bus : CpuBus) (x y : Nat)
    (hcf : s.color_fill = true)
    (hne : (Blitter.blitStep s bus).2.framebuffers x y ≠ bus.framebuffers x y) :
    (Blitter.blitStep s bus).2.framebuffers x y = s.color := by
  revert hne
  simp only [Blitter.blitStep, hcf]
  split_ifs <;> intro hne <;> first
    | exact absurd rfl hne
    | (simp only [upd2] at hne ⊢; split_ifs at hne ⊢ with hix <;> simp_all)

/-- While the latched state is Blitting, a cycle is the stepping phase. -/
theorem Blitter.cycle_blitting_eq (self : Blitter) (bus : CpuBus)
    (h : (Blitter.startPhase self bus).1.blitting = true) :
    Blitter.cycle self bus
      = Blitter.blitStep (Blitter.startPhase self bus).1
          (Blitter.startPhase self bus).2 := by
  simp only [Blitter.cycle, h, Bool.not_true, Bool.false_eq_true, if_false]

/-- While the latched state is idle, a cycle only consumes the start
register. -/
theorem Blitter.cycle_idle_eq (self : Blitter) (bus : CpuBus)
    (h : (Blitter.startPhase self bus).1.blitting = false) :
    Blitter.cycle self bus = Blitter.startPhase self bus := by
  simp only [Blitter.cycle, h, Bool.not_false, if_true]

/-- C9: when a blit is latched (engine idle, start bit written), the fill
color the engine latches is the bitwise complement of the value last
written to the blitter color register (window address 0x4007), and the
latched fill mode follows the colorfill DMA flag; moreover any framebuffer
byte a fill-mode engine cycle changes is set to exactly that latched
color, so every fill-blit pixel carries the complement of the register. -/
theorem blit_fill_color_is_complement_of_register :
    (∀ (self : Blitter) (bus : CpuBus),
      self.blitting = false → bus.blitter.start.write &&& 1 = 1 →
      (Blitter.cycle self bus).1.color = u8not bus.blitter.color ∧
      (Blitter.cycle self bus).1.color_fill
        = bus.system_control.dma_flags.dma_colorfill_enable) ∧
    (∀ (self : Blitter) (bus : CpuBus) (x y : Nat),
      (Blitter.cycle self bus).1.color_fill = true →
      (Blitter.cycle self bus).2.framebuffers x y ≠ bus.framebuffers x y →
      (Blitter.cycle self bus).2.framebuffers x y
        = (Blitter.cycle self bus).1.color) := by
  constructor
  · intro self bus hblit hw
    obtain ⟨hcol, hcf, hb⟩ := Blitter.startPhase_latches self bus hblit hw
    rw [Blitter.cycle_blitting_eq self bus hb]
    obtain ⟨h1, h2⟩ :=
      Blitter.blitStep_keeps_color (Blitter.startPhase self bus).1
        (Blitter.startPhase self bus).2
    exact ⟨h1.trans hcol, h2.trans hcf⟩
  · intro self bus x y hcf hne
    cases hb : (Blitter.startPhase self bus).1.blitting
    · rw [Blitter.cycle_idle_eq self bus hb] at hne ⊢
      have hfb : (Blitter.startPhase self bus).2.framebuffers = bus.framebuffers := rfl
      rw [hfb] at hne
      exact absurd rfl hne
    · rw [Blitter.cycle_blitting_eq self bus hb] at hcf hne ⊢
      have hfb : (Blitter.startPhase self bus).2.framebuffers = bus.framebuffers := rfl
      rw [← hfb] at hne
      have hcf2 : (Blitter.startPhase self bus).1.color_fill = true :=
        ((Blitter.blitStep_keeps_color _ _).2).symm.trans hcf
      have hv := Blitter.blitStep_fill_write (Blitter.startPhase self bus).1
        (Blitter.startPhase self bus).2 x y hcf2 hne
      rw [hv]
      exact ((Blitter.blitStep_keeps_color _ _).1).symm

/-- C9, witness: in the C1 scenario the latched color is the complement of
register value 0x12, and the first written pixel equals the latched color. -/
theorem blit_fill_color_is_complement_of_register_witness :
    (Blitter.cycle Blitter.default c1Bus).1.color = u8not c1Bus.blitter.color ∧
    (Blitter.cycle Blitter.default c1Bus).2.framebuffers 1 (5 + 7 * 128)
      = (Blitter.cycle Blitter.default c1Bus).1.color := by
  constructor
  · exact (blit_fill_color_is_complement_of_register.1 Blitter.default c1Bus
      (by decide!) (by decide!)).1
  · exact blit_fill_color_is_complement_of_register.2 Blitter.default c1Bus 1
      (5 + 7 * 128) (by decide!) (by decide!)

/-- C6: for any access in the 16KB window 0x4000-0x7FFF, the region hit is
the one selected by get_graphics_memory_map evaluated on the DMA flags at
that very access: exactly one of framebuffer, VRAM quadrant or blitter
registers is read or written, the other two (and every region outside the
window) stay untouched, and a write to the DMA flags register 0x2007
changes the selection seen by the immediately following access. -/
theorem graphics_window_dispatch (bus : CpuBus) (f addr data : Nat)
    (h1 : 0x4000 ≤ addr) (h2 : addr ≤ 0x7FFF) :
    (bus.system_control.get_graphics_memory_map = GraphicsMemoryMap.FrameBuffer ∨
     bus.system_control.get_graphics_memory_map = GraphicsMemoryMap.VRAM ∨
     bus.system_control.get_graphics_memory_map = GraphicsMemoryMap.BlitterRegisters) ∧
    (bus.system_control.get_graphics_memory_map = GraphicsMemoryMap.FrameBuffer →
      (bus.write_byte addr data).framebuffers
        = upd2 bus.framebuffers bus.system_control.banking_register.framebuffer
            (addr - 0x4000) data ∧
      (bus.write_byte addr data).vram_banks = bus.vram_banks ∧
      (bus.write_byte addr data).blitter = bus.blitter ∧
      (bus.read_byte addr).1
        = bus.framebuffers bus.system_control.banking_register.framebuffer
            (addr - 0x4000)) ∧
    (bus.system_control.get_graphics_memory_map = GraphicsMemoryMap.VRAM →
      (bus.write_byte addr data).vram_banks
        = upd2 bus.vram_banks bus.system_control.banking_register.vram_page
            (addr - 0x4000 + bus.blitter.vram_quadrant * (128 * 128)) data ∧
      (bus.write_byte addr data).framebuffers = bus.framebuffers ∧
      (bus.write_byte addr data).blitter = bus.blitter ∧
      (bus.read_byte addr).1
        = bus.vram_banks bus.system_control.banking_register.vram_page
            (addr - 0x4000 + bus.blitter.vram_quadrant * (128 * 128))) ∧
    (bus.system_control.get_graphics_memory_map = GraphicsMemoryMap.BlitterRegisters →
      (bus.write_byte addr data).blitter = bus.blitter.write_byte addr data ∧
      (bus.write_byte addr data).framebuffers = bus.framebuffers ∧
      (bus.write_byte addr data).vram_banks = bus.vram_banks ∧
      (bus.read_byte addr).1 = (bus.blitter.read_byte addr).1) ∧
    ((bus.write_byte addr data).system_control = bus.system_control ∧
     (bus.write_byte addr data).ram_banks = bus.ram_banks ∧
     (bus.write_byte addr data).aram = bus.aram ∧
     (bus.write_byte addr data).cartridge = bus.cartridge) ∧
    ((bus.write_byte 0x2007 f).system_control.get_graphics_memory_map
      = SystemControl.get_graphics_memory_map
          { bus.system_control with dma_flags := ⟨f⟩ }) := by
  refine ⟨?_, ?_, ?_, ?_, ?_, rfl⟩
  · cases bus.system_control.get_graphics_memory_map <;> simp
  · intro hm
    simp only [CpuBus.write_byte, CpuBus.read_byte]
    rw [if_neg (by omega), if_neg (by omega), if_neg (by omega), if_neg (by omega),
      if_pos (by omega), hm, if_neg (by omega), if_neg (by omega), if_neg (by omega),
      if_neg (by omega), if_pos (by omega)]
    exact ⟨rfl, rfl, rfl, rfl⟩
  · intro hm
    simp only [CpuBus.write_byte, CpuBus.read_byte]
    rw [if_neg (by omega), if_neg (by omega), if_neg (by omega), if_neg (by omega),
      if_pos (by omega), hm, if_neg (by omega), if_neg (by omega), if_neg (by omega),
      if_neg (by omega), if_pos (by omega)]
    exact ⟨rfl, rfl, rfl, rfl⟩
  · intro hm
    simp only [CpuBus.write_byte, CpuBus.read_byte]
    rw [if_neg (by omega), if_neg (by omega), if_neg (by omega), if_neg (by omega),
      if_pos (by omega), hm, if_neg (by omega), if_neg (by omega), if_neg (by omega),
      if_neg (by omega), if_pos (by omega)]
    exact ⟨rfl, rfl, rfl, rfl⟩
  · simp only [CpuBus.write_byte]
    rw [if_neg (by omega), if_neg (by omega), if_neg (by omega), if_neg (by omega),
      if_pos (by omega)]
    cases bus.system_control.get_graphics_memory_map <;>
      exact ⟨rfl, rfl, rfl, rfl⟩

/-- C6, witness: on the default bus with flag byte 0 (window mapped to
VRAM), a write to 0x4000 lands in VRAM and leaves the framebuffers and
blitter registers alone, and rewriting the DMA flags register first
immediately remaps the window. -/
theorem graphics_window_dispatch_witness :
    (CpuBus.default.write_byte 0x2007 0).system_control.get_graphics_memory_map
        = SystemControl.get_graphics_memory_map
            { CpuBus.default.system_control with dma_flags := ⟨0⟩ } ∧
    ((CpuBus.default.write_byte 0x2007 0).write_byte 0x4000 7).framebuffers
        = (CpuBus.default.write_byte 0x2007 0).framebuffers := by
  have hbase := graphics_window_dispatch CpuBus.default 0 0x4000 7
    (by decide) (by decide)
  have hnext := graphics_window_dispatch (CpuBus.default.write_byte 0x2007 0) 0
    0x4000 7 (by decide) (by decide)
  exact ⟨hbase.2.2.2.2.2, (hnext.2.2.1 (by decide!)).2.1⟩

/-- Each loop body application either skips an out-of-range bank or fills
the byte range given by eraseLo and eraseHi. -/
theorem eraseFoldStep_eq (sb eb so eo : Nat) (d : Nat → Nat) (k : Nat) :
    eraseFoldStep sb eb so eo d k
      = if k ≥ 128 then d
        else fillRange d (eraseLo sb so k) (eraseHi sb eb so eo k) := by
  simp only [eraseFoldStep, eraseLo, eraseHi, bank_range_start]
  split_ifs <;> rfl

/-- Pointwise effect of folding the erase step over any bank list: a byte
becomes 0xFF exactly when some listed in-range bank covers it. -/
theorem foldl_eraseFoldStep (sb eb so eo : Nat) (L : List Nat) (d : Nat → Nat) (i : Nat) :
    (L.foldl (eraseFoldStep sb eb so eo) d) i
      = if ∃ k ∈ L, k < 128 ∧ eraseLo sb so k ≤ i ∧ i < eraseHi sb eb so eo k
        then 255 else d i := by
  induction L generalizing d with
  | nil => simp
  | cons k t IH =>
    rw [List.foldl_cons, IH, eraseFoldStep_eq]
    by_cases h1 : ∃ k' ∈ t, k' < 128 ∧ eraseLo sb so k' ≤ i ∧ i < eraseHi sb eb so eo k'
    · rw [if_pos h1]
      obtain ⟨k', hk', hrest⟩ := h1
      rw [if_pos ⟨k', List.mem_cons_of_mem k hk', hrest⟩]
    · rw [if_neg h1]
      by_cases h2 : k ≥ 128
      · rw [if_pos h2, if_neg]
        rintro ⟨k', hk', hlt, hrest⟩
        rcases List.mem_cons.mp hk' with rfl | hmem
        · omega
        · exact h1 ⟨k', hmem, hlt, hrest⟩
      · rw [if_neg h2]
        simp only [fillRange]
        by_cases h3 : eraseLo sb so k ≤ i ∧ i < eraseHi sb eb so eo k
        · rw [if_pos h3, if_pos ⟨k, List.mem_cons_self k t, by omega, h3⟩]
        · rw [if_neg h3, if_neg]
          rintro ⟨k', hk', hlt, hrest⟩
          rcases List.mem_cons.mp hk' with rfl | hmem
          · exact h3 hrest
          · exact h1 ⟨k', hmem, hlt, hrest⟩

/-- The union of the per-bank fill ranges of the erase loop is exactly the
block span, under the side conditions satisfied by the block table. -/
theorem erase_union_iff (bs be i : Nat) (hlt : bs < be) (hle : be ≤ 128 * BANK_SIZE)
    (hshape : bs % BANK_SIZE = 0 ∨ be % BANK_SIZE = 0 ∨
      bs / BANK_SIZE + 1 < (be + BANK_SIZE - 1) / BANK_SIZE) :
    (∃ k ∈ List.range' (bs / BANK_SIZE) ((be + BANK_SIZE - 1) / BANK_SIZE - bs / BANK_SIZE),
        k < 128 ∧ eraseLo (bs / BANK_SIZE) (bs % BANK_SIZE) k ≤ i ∧
          i < eraseHi (bs / BANK_SIZE) ((be + BANK_SIZE - 1) / BANK_SIZE)
                (bs % BANK_SIZE) (be % BANK_SIZE) k)
      ↔ (bs ≤ i ∧ i < be) := by
  simp only [List.mem_range'_1, eraseLo, eraseHi, BANK_SIZE] at *
  constructor
  · rintro ⟨k, ⟨hk1, hk2⟩, hk3, hlo, hhi⟩
    split_ifs at hlo hhi <;> omega
  · rintro ⟨hbs, hbe⟩
    refine ⟨i / 16384, ⟨by omega, by omega⟩, by omega, ?_, ?_⟩ <;> split_ifs <;> omega



/-- The block table satisfies the erase-span side conditions on every bank. -/
theorem erase_table_all : ((List.range 128).all eraseShapeOk) = true := by decide!

/-- Propositional form of the table check for a single bank. -/
theorem erase_table_fact (bank : Nat) (h : bank < 128) :
    blockStartOfBank bank < blockEndOfBank bank ∧
    blockEndOfBank bank ≤ 128 * BANK_SIZE ∧
    (blockStartOfBank bank % BANK_SIZE = 0 ∨ blockEndOfBank bank % BANK_SIZE = 0 ∨
      blockStartOfBank bank / BANK_SIZE + 1
        < (blockEndOfBank bank + BANK_SIZE - 1) / BANK_SIZE) := by
  have hall := List.all_eq_true.mp erase_table_all bank (List.mem_range.mpr h)
  simp only [eraseShapeOk, Bool.and_eq_true, Bool.or_eq_true, decide_eq_true_eq] at hall
  have hle : blockEndOfBank bank ≤ 0x200000 := hall.1.2
  exact ⟨hall.1.1, by simpa [BANK_SIZE] using hle, or_assoc.mp hall.2⟩

/-- C4: for every value of the bank-mask register, executing the flash
block-erase command sets to 0xFF exactly the byte span owned by the block
of the selected bank (bank mask masked to 7 bits), as computed from the
non-uniform block-length table, including the partial 16KB-bank boundaries
of the 32KB and 8KB blocks, and leaves every byte outside that span
unchanged. -/
theorem flash_block_erase_exact_span (buf : List FlashInput)
    (addr bank_mask : Nat) (d : Nat → Nat) (i : Nat) :
    blockEraseExec buf addr bank_mask d i
      = if blockStartOfBank (bank_mask &&& 0x7F) ≤ i ∧
            i < blockEndOfBank (bank_mask &&& 0x7F)
        then 0xFF else d i := by
  have hbank : bank_mask &&& 0x7F < 128 :=
    lt_of_le_of_lt Nat.and_le_right (by norm_num)
  obtain ⟨hlt, hle, hshape⟩ := erase_table_fact (bank_mask &&& 0x7F) hbank
  show blockEraseData d bank_mask i = _
  simp only [blockEraseData]
  rw [foldl_eraseFoldStep]
  have hbs : (BLOCK_LENGTHS.take (blockIndexOfBank (bank_mask &&& 0x7F))).sum
      = blockStartOfBank (bank_mask &&& 0x7F) := rfl
  have hbe : blockStartOfBank (bank_mask &&& 0x7F)
        + blockLen (blockIndexOfBank (bank_mask &&& 0x7F))
      = blockEndOfBank (bank_mask &&& 0x7F) := rfl
  rw [hbs, hbe]
  rw [if_congr (erase_union_iff (blockStartOfBank (bank_mask &&& 0x7F))
    (blockEndOfBank (bank_mask &&& 0x7F)) i hlt hle hshape) rfl rfl]

/-- Decimal-mode cases 0 to 2499, checked by kernel computation. -/
theorem bcdChunk0 : bcdFromTo 0 2500 = true := by decide!

/-- Decimal-mode cases 2500 to 4999. -/
theorem bcdChunk1 : bcdFromTo 2500 2500 = true := by decide!

/-- Decimal-mode cases 5000 to 7499. -/
theorem bcdChunk2 : bcdFromTo 5000 2500 = true := by decide!

/-- Decimal-mode cases 7500 to 9999. -/
theorem bcdChunk3 : bcdFromTo 7500 2500 = true := by decide!

/-- Decimal-mode cases 10000 to 12499. -/
theorem bcdChunk4 : bcdFromTo 10000 2500 = true := by decide!

/-- Decimal-mode cases 12500 to 14999. -/
theorem bcdChunk5 : bcdFromTo 12500 2500 = true := by decide!

/-- Decimal-mode cases 15000 to 17499. -/
theorem bcdChunk6 : bcdFromTo 15000 2500 = true := by decide!

/-- Decimal-mode cases 17500 to 19999. -/
theorem bcdChunk7 : bcdFromTo 17500 2500 = true := by decide!

/-- A verified case range yields each of its member cases. -/
theorem bcdFromTo_extract (lo : Nat) :
    ∀ k, bcdFromTo lo k = true → ∀ n, lo ≤ n → n < lo + k → bcdPair n = true := by
  intro k
  induction k with
  | zero => intro _ n h1 h2; omega
  | succ k IH =>
    intro h n h1 h2
    rw [bcdFromTo, Bool.and_eq_true] at h
    by_cases hn : n = lo + k
    · rw [hn]; exact h.1
    · exact IH h.2 n h1 (by omega)

/-- Every decimal case index below 20000 checks out. -/
theorem bcdPair_all (n : Nat) (h : n < 20000) : bcdPair n = true := by
  rcases lt_or_ge n 2500 with h' | _
  · exact bcdFromTo_extract 0 2500 bcdChunk0 n (by omega) (by omega)
  rcases lt_or_ge n 5000 with h' | _
  · exact bcdFromTo_extract 2500 2500 bcdChunk1 n (by omega) (by omega)
  rcases lt_or_ge n 7500 with h' | _
  · exact bcdFromTo_extract 5000 2500 bcdChunk2 n (by omega) (by omega)
  rcases lt_or_ge n 10000 with h' | _
  · exact bcdFromTo_extract 7500 2500 bcdChunk3 n (by omega) (by omega)
  rcases lt_or_ge n 12500 with h' | _
  · exact bcdFromTo_extract 10000 2500 bcdChunk4 n (by omega) (by omega)
  rcases lt_or_ge n 15000 with h' | _
  · exact bcdFromTo_extract 12500 2500 bcdChunk5 n (by omega) (by omega)
  rcases lt_or_ge n 17500 with h' | _
  · exact bcdFromTo_extract 15000 2500 bcdChunk6 n (by omega) (by omega)
  exact bcdFromTo_extract 17500 2500 bcdChunk7 n (by omega) (by omega)

/-- C5: for every pair of BCD operands (all bytes toBcd x, toBcd y with
x, y < 100, covering 0x00 to 0x99) and every carry-in, the decimal-mode ADC
and SBC of the CPU produce the accumulator, carry and overflow prescribed
by the documented 6502 BCD rules: the accumulator is the BCD sum (or
difference) modulo 100, carry is the decimal carry out (or no-borrow), and
overflow follows the documented nibble-wise 0x06/0x60 adjustment rule. -/
theorem adc_sbc_decimal_match_documented_rules :
    ∀ x, x < 100 → ∀ y, y < 100 → ∀ cin : Bool,
      adcDecimalOk (toBcd x) (toBcd y) cin = true ∧
      sbcDecimalOk (toBcd x) (toBcd y) cin = true := by
  intro x hx y hy cin
  have hn : x * 200 + y * 2 + b2n cin < 20000 := by
    cases cin
    · show x * 200 + y * 2 + 0 < 20000
      omega
    · show x * 200 + y * 2 + 1 < 20000
      omega
  have hp := bcdPair_all (x * 200 + y * 2 + b2n cin) hn
  have hx' : (x * 200 + y * 2 + b2n cin) / 200 = x := by
    cases cin
    · show (x * 200 + y * 2 + 0) / 200 = x
      omega
    · show (x * 200 + y * 2 + 1) / 200 = x
      omega
  have hy' : ((x * 200 + y * 2 + b2n cin) / 2) % 100 = y := by
    cases cin
    · show ((x * 200 + y * 2 + 0) / 2) % 100 = y
      omega
    · show ((x * 200 + y * 2 + 1) / 2) % 100 = y
      omega
  have hc' : ((x * 200 + y * 2 + b2n cin) % 2 == 1) = cin := by
    cases cin
    · show ((x * 200 + y * 2 + 0) % 2 == 1) = false
      have h0 : (x * 200 + y * 2 + 0) % 2 = 0 := by omega
      rw [h0]
      rfl
    · show ((x * 200 + y * 2 + 1) % 2 == 1) = true
      have h1 : (x * 200 + y * 2 + 1) % 2 = 1 := by omega
      rw [h1]
      rfl
  rw [bcdPair, hx', hy', hc', Bool.and_eq_true] at hp
  exact hp

/-- C5, witness: the case 42 + 9 with carry-in set. -/
theorem adc_sbc_decimal_match_documented_rules_witness :
    adcDecimalOk (toBcd 42) (toBcd 9) true = true ∧
    sbcDecimalOk (toBcd 42) (toBcd 9) true = true :=
  adc_sbc_decimal_match_documented_rules 42 (by norm_num) 9 (by norm_num) true

end GameTank
